import Mathlib

/-!
# kfusion frame driver (`kfusion/src/mainQt.cpp`)

A shallow embedding of `storeStats`, `processAll` and `main` of
`kfusion/src/mainQt.cpp`, and the properties of the frame driver proved on it.

Conventions of the embedding.

* `float` and `double` values are elements of one type `D` that carries the
  operations the source uses (`-`, `*`, `/`, conversion from `int`, decimal
  literals).  Nothing is assumed about these operations, so every theorem holds
  for IEEE arithmetic as well as for exact arithmetic.
* `int` values are `Int`; the frame counters are assumed to stay in the range
  of `int` (signed overflow is undefined in C++ and is not modelled).
  `unsigned` values are `Nat`.
* A pointer that may be `NULL` is an `Option`; a function that dereferences a
  `NULL` pointer returns `none` (undefined behaviour), otherwise `some` result.
* The collaborators declared in headers that are not part of `mainQt.cpp`
  (`DepthReader`, `Kfusion`) are records of operations over abstract state
  types `ρ` (reader), `κ` (engine) and `β` (the input buffers `inputRGB`,
  `inputDepth`).  Every call that acts on a collaborator is appended to a call
  log, with its arguments other than buffers and buffer sizes.
* Local variables of `processAll` that the source leaves uninitialised start
  with arbitrary contents, given by a parameter of type `Locals`.
-/

namespace KFusion

/-! ## Vector types (`vector_types.h`, `cutil_math.h`) -/

/-- Pair of `unsigned int`. -/
structure uint2 where
  x : Nat
  y : Nat
deriving DecidableEq, Repr

/-- Triple of `unsigned int`. -/
structure uint3 where
  x : Nat
  y : Nat
  z : Nat
deriving DecidableEq, Repr

/-- Triple of `float`. -/
structure float3 (D : Type) where
  x : D
  y : D
  z : D
deriving DecidableEq, Repr

/-- Quadruple of `float`. -/
structure float4 (D : Type) where
  x : D
  y : D
  z : D
  w : D
deriving DecidableEq, Repr

/-- The constructor `make_uint2(x, y)`. -/
def make_uint2 (x y : Nat) : uint2 := ⟨x, y⟩

/-- The constructor `make_float4(s)`: all four components equal to `s`. -/
def make_float4 {D : Type} (s : D) : float4 D := ⟨s, s, s, s⟩

/-- Modelled from the spec: `operator/(float4, float)` of `cutil_math.h`, which is
not among the sources; the spec writes the scaled intrinsics as
`K / computeSizeRatio`, taken componentwise. -/
def float4.div {D : Type} [Div D] (a : float4 D) (s : D) : float4 D :=
  ⟨a.x / s, a.y / s, a.z / s, a.w / s⟩

/-- Modelled from the spec: `operator*(float3, float3)` of `cutil_math.h`, which is
not among the sources; the spec writes the initial pose as
`initial_pos_factor * volume_size`, taken componentwise. -/
def float3.mul {D : Type} [Mul D] (a b : float3 D) : float3 D :=
  ⟨a.x * b.x, a.y * b.y, a.z * b.z⟩

/-- Conversion of a `bool` to `double`: `false` is `0`, `true` is `1`. -/
def boolToDouble {D : Type} [IntCast D] (b : Bool) : D :=
  ((if b then 1 else 0 : Int) : D)

/-! ## Telemetry (`perfstats.h`) -/

namespace PerfStats

/-- The members of `enum PerfStats::Type` that `mainQt.cpp` uses.  The kind of
the two 0/1 samples is named `INT` in the source. -/
inductive Type_ where
  | FRAME
  | TIME
  | DISTANCE
  | INT
deriving DecidableEq, Repr

end PerfStats

/-- One call `Stats.sample(key, value, type)`. -/
structure Sample (D : Type) where
  key : String
  value : D
  type : PerfStats.Type_
deriving DecidableEq, Repr

/-- The telemetry sink `Stats`: the samples taken so far, oldest first. -/
structure PerfStats (D : Type) where
  samples : List (Sample D)

/-- Modelled from the spec: `PerfStats::sample` is declared in `perfstats.h`, which
is not among the sources.  The spec describes the sink as an ordered sequence of
samples with insertion order preserved, so a sample is added at the end. -/
def PerfStats.sample {D : Type} (Stats : PerfStats D) (key : String) (value : D)
    (type : PerfStats.Type_) : PerfStats D :=
  ⟨Stats.samples ++ [⟨key, value, type⟩]⟩

/-- The function `storeStats` (lines 63-79), acting on the global `Stats`. -/
def storeStats {D : Type} [Sub D] [IntCast D] (Stats : PerfStats D) (frame : Int)
    (timings : Fin 7 → D) (pos : float3 D) (tracked integrated : Bool) : PerfStats D :=
  let Stats := Stats.sample "frame" (frame : D) PerfStats.Type_.FRAME
  let Stats := Stats.sample "acquisition" (timings 1 - timings 0) PerfStats.Type_.TIME
  let Stats := Stats.sample "preprocessing" (timings 2 - timings 1) PerfStats.Type_.TIME
  let Stats := Stats.sample "tracking" (timings 3 - timings 2) PerfStats.Type_.TIME
  let Stats := Stats.sample "integration" (timings 4 - timings 3) PerfStats.Type_.TIME
  let Stats := Stats.sample "raycasting" (timings 5 - timings 4) PerfStats.Type_.TIME
  let Stats := Stats.sample "rendering" (timings 6 - timings 5) PerfStats.Type_.TIME
  let Stats := Stats.sample "computation" (timings 5 - timings 1) PerfStats.Type_.TIME
  let Stats := Stats.sample "total" (timings 6 - timings 0) PerfStats.Type_.TIME
  let Stats := Stats.sample "X" pos.x PerfStats.Type_.DISTANCE
  let Stats := Stats.sample "Y" pos.y PerfStats.Type_.DISTANCE
  let Stats := Stats.sample "Z" pos.z PerfStats.Type_.DISTANCE
  let Stats := Stats.sample "tracked" (boolToDouble tracked) PerfStats.Type_.INT
  let Stats := Stats.sample "integrated" (boolToDouble integrated) PerfStats.Type_.INT
  Stats

/-- The samples one call of `storeStats` adds, in order. -/
def storeStatsGroup {D : Type} [Sub D] [IntCast D] (frame : Int) (timings : Fin 7 → D)
    (pos : float3 D) (tracked integrated : Bool) : List (Sample D) :=
  (storeStats ⟨[]⟩ frame timings pos tracked integrated).samples

/-- The keys and kinds of the samples one call of `storeStats` adds, in order. -/
def storeStatsKeys : List (String × PerfStats.Type_) :=
  [("frame", PerfStats.Type_.FRAME), ("acquisition", PerfStats.Type_.TIME),
   ("preprocessing", PerfStats.Type_.TIME), ("tracking", PerfStats.Type_.TIME),
   ("integration", PerfStats.Type_.TIME), ("raycasting", PerfStats.Type_.TIME),
   ("rendering", PerfStats.Type_.TIME), ("computation", PerfStats.Type_.TIME),
   ("total", PerfStats.Type_.TIME), ("X", PerfStats.Type_.DISTANCE),
   ("Y", PerfStats.Type_.DISTANCE), ("Z", PerfStats.Type_.DISTANCE),
   ("tracked", PerfStats.Type_.INT), ("integrated", PerfStats.Type_.INT)]

/-- The key and the kind of every sample of a sink, in order. -/
def PerfStats.keys {D : Type} (Stats : PerfStats D) : List (String × PerfStats.Type_) :=
  Stats.samples.map (fun s => (s.key, s.type))

/-- The values of the samples of a sink that are named `frame`, in order. -/
def PerfStats.frameSamples {D : Type} (Stats : PerfStats D) : List D :=
  (Stats.samples.filter (fun s => s.key == "frame")).map (fun s => s.value)

/-! ## Collaborators of the frame driver -/

/-- The fields of `Configuration` that `mainQt.cpp` reads. -/
structure Configuration (D : Type) where
  compute_size_ratio : Int
  initial_pos_factor : float3 D
  volume_size : float3 D
  volume_resolution : uint3
  pyramid : List Int
  integration_rate : Int
  tracking_rate : Int
  rendering_rate : Int
  icp_threshold : D
  mu : D
  camera_overrided : Bool
  camera : float4 D
  no_gui : Bool
  log_file : String
  dump_volume_file : String
  render_volume_fullsize : Bool

/-- The interface `DepthReader` as `mainQt.cpp` uses it, over the reader state `ρ`.
`readNextDepthFrame` returns its `bool` result, the reader after the call and the
contents of the input buffers after the call. -/
structure DepthReader (D ρ β : Type) where
  getinputSize : ρ → uint2
  getK : ρ → float4 D
  getFrameNumber : ρ → Int
  readNextDepthFrame : ρ → β → Bool × ρ × β
  cameraActive : ρ → Bool

/-- The interface `Kfusion` as `mainQt.cpp` uses it, over the engine state `κ`.
The stage operations return their `bool` result and the engine after the call;
`create` is the constructor. -/
structure Kfusion (D κ β : Type) where
  getPosition : κ → float3 D
  preprocessing : κ → β → uint2 → κ
  tracking : κ → float4 D → D → Int → Int → Bool × κ
  integration : κ → float4 D → Int → D → Int → Bool × κ
  raycasting : κ → float4 D → D → Int → Bool × κ
  renderDepth : κ → uint2 → κ
  renderTrack : κ → uint2 → κ
  renderVolume : κ → uint2 → Int → Int → float4 D → D → κ
  getComputationResolution : κ → uint2
  create : uint2 → uint3 → float3 D → float3 D → List Int → κ
  dumpVolume : κ → String → κ

/-- The object behind the global pointer `powerMonitor`. -/
structure PowerMonitor where
  isActive : Bool
deriving DecidableEq, Repr

/-- The calls that act on a collaborator, with the arguments that are neither buffers
nor the size of a buffer (the output size `kfusion->getComputationResolution()` of the
three renderers and of `drawthem`). -/
inductive Call (D : Type) where
  | Stats_start
  | Stats_print
  | tock
  | readNextDepthFrame
  | powerMonitor_start
  | powerMonitor_sample
  | preprocessing (inputSize : uint2)
  | tracking (camera : float4 D) (icp_threshold : D) (tracking_rate : Int) (frame : Int)
  | integration (camera : float4 D) (integration_rate : Int) (mu : D) (frame : Int)
  | raycasting (camera : float4 D) (mu : D) (frame : Int)
  | renderDepth
  | renderTrack
  | renderVolume (frame : Int) (rendering_rate : Int) (camera : float4 D) (largestep : D)
  | new_Kfusion (computationSize : uint2) (volume_resolution : uint3)
      (volume_size : float3 D) (init_pose : float3 D) (pyramid : List Int)
  | cerr (message : String)
  | drawthem
  | dumpVolume (filename : String)
  | Stats_print_all_data (filename : String)
  | powerStats_print_all_data (filename : String)
deriving DecidableEq, Repr

/-- The global variables of `mainQt.cpp` and the static variables of `processAll`.
`clock` and `ticks` stand for the monotonic clock read by `tock`: the call number
`ticks` returns `clock ticks`.  `log` is the sequence of collaborator calls so far. -/
structure Globals (D κ β : Type) where
  Stats : PerfStats D
  powerMonitor : Option PowerMonitor
  input : β
  kfusion : κ
  frameOffset : Int
  firstFrame : Bool
  clock : Nat → D
  ticks : Nat
  log : List (Call D)

/-- The local variables of `processAll` that are declared without initialiser
(lines 174-179). -/
structure Locals (D : Type) where
  tracked : Bool
  integrated : Bool
  raycasted : Bool
  timings : Fin 7 → D
  pos : float3 D
  frame : Int

section State

variable {D κ β : Type}

/-- A call `c` to a collaborator: it is appended to the log. -/
def Globals.call (g : Globals D κ β) (c : Call D) : Globals D κ β :=
  { g with log := g.log ++ [c] }

/-- The statement `if (b) c;` for a call `c` to a collaborator. -/
def Globals.callWhen (g : Globals D κ β) (b : Bool) (c : Call D) : Globals D κ β :=
  { g with log := g.log ++ (if b then [c] else []) }

/-- The engine after one of its operations. -/
def Globals.setKfusion (g : Globals D κ β) (k : κ) : Globals D κ β :=
  { g with kfusion := k }

/-- The input buffers after the reader has written them. -/
def Globals.setInput (g : Globals D κ β) (b : β) : Globals D κ β :=
  { g with input := b }

/-- The assignment `frameOffset = n`. -/
def Globals.setFrameOffset (g : Globals D κ β) (n : Int) : Globals D κ β :=
  { g with frameOffset := n }

/-- The assignment `firstFrame = b`. -/
def Globals.setFirstFrame (g : Globals D κ β) (b : Bool) : Globals D κ β :=
  { g with firstFrame := b }

/-- The sink after a change. -/
def Globals.setStats (g : Globals D κ β) (s : PerfStats D) : Globals D κ β :=
  { g with Stats := s }

/-- The function `tock` (lines 53-58): waits for the devices and reads the clock.
The result is the time and the globals after the call. -/
def tock (g : Globals D κ β) : D × Globals D κ β :=
  (g.clock g.ticks, { g with ticks := g.ticks + 1, log := g.log ++ [Call.tock] })

end State

section Driver

variable {D ρ κ β : Type} [Sub D] [Mul D] [Div D] [IntCast D] [OfScientific D]

/-- The branch of `processAll` taken when a frame was acquired (lines 199-223),
for the reader `r` after the acquisition.  The result is the local variables the
branch assigns and the globals after it. -/
def processAll_stages (R : DepthReader D ρ β) (K : Kfusion D κ β) (r : ρ)
    (inputSize : uint2) (camera : float4 D) (config : Configuration D) (timings : Fin 7 → D)
    (g : Globals D κ β) : Locals D × Globals D κ β :=
  let frame := R.getFrameNumber r - g.frameOffset
  let g := g.callWhen (g.powerMonitor.isSome && !g.firstFrame) Call.powerMonitor_start
  let pos := K.getPosition g.kfusion
  let timings := Function.update timings 1 (tock g).1
  let g := (tock g).2
  let g := (g.call (Call.preprocessing inputSize)).setKfusion
    (K.preprocessing g.kfusion g.input inputSize)
  let timings := Function.update timings 2 (tock g).1
  let g := (tock g).2
  let res := K.tracking g.kfusion camera config.icp_threshold config.tracking_rate frame
  let tracked := res.1
  let g := (g.call (Call.tracking camera config.icp_threshold config.tracking_rate
    frame)).setKfusion res.2
  let timings := Function.update timings 3 (tock g).1
  let g := (tock g).2
  let res := K.integration g.kfusion camera config.integration_rate config.mu frame
  let integrated := res.1
  let g := (g.call (Call.integration camera config.integration_rate config.mu
    frame)).setKfusion res.2
  let timings := Function.update timings 4 (tock g).1
  let g := (tock g).2
  let res := K.raycasting g.kfusion camera config.mu frame
  let raycasted := res.1
  let g := (g.call (Call.raycasting camera config.mu frame)).setKfusion res.2
  let timings := Function.update timings 5 (tock g).1
  let g := (tock g).2
  ({ tracked := tracked, integrated := integrated, raycasted := raycasted,
     timings := timings, pos := pos, frame := frame }, g)

/-- The rendering block of `processAll` (lines 233-238); `frame` is the value of
the argument `processFrame ? reader->getFrameNumber() - frameOffset : 0`. -/
def processAll_render (K : Kfusion D κ β) (frame : Int) (camera : float4 D)
    (config : Configuration D) (locals : Locals D) (g : Globals D κ β) :
    Locals D × Globals D κ β :=
  let size := K.getComputationResolution g.kfusion
  let g := (g.call Call.renderDepth).setKfusion (K.renderDepth g.kfusion size)
  let size := K.getComputationResolution g.kfusion
  let g := (g.call Call.renderTrack).setKfusion (K.renderTrack g.kfusion size)
  let size := K.getComputationResolution g.kfusion
  let largestep := (0.75 : D) * config.mu
  let g := (g.call (Call.renderVolume frame config.rendering_rate camera largestep)).setKfusion
    (K.renderVolume g.kfusion size frame config.rendering_rate camera largestep)
  ({ locals with timings := Function.update locals.timings 6 (tock g).1 }, (tock g).2)

/-- The bookkeeping block of `processAll` (lines 242-248). -/
def processAll_record (config : Configuration D) (locals : Locals D) (g : Globals D κ β) :
    Globals D κ β :=
  let g := g.callWhen (g.powerMonitor.isSome && !g.firstFrame) Call.powerMonitor_sample
  let g := g.setStats
    (storeStats g.Stats locals.frame locals.timings locals.pos locals.tracked locals.integrated)
  let g := g.callWhen (config.no_gui && config.log_file == "") Call.Stats_print
  g.setFirstFrame false

/-- The input size `processAll` and `main` compute (lines 94-95 and 180-181). -/
def processAll_inputSize (R : DepthReader D ρ β) (reader : Option ρ) : uint2 :=
  match reader with
  | some r => R.getinputSize r
  | none => make_uint2 640 480

/-- The camera vector `processAll` computes (lines 182-187). -/
def processAll_camera (R : DepthReader D ρ β) (reader : Option ρ) (config : Configuration D) :
    float4 D :=
  let camera : float4 D :=
    match reader with
    | some r => (R.getK r).div ((config.compute_size_ratio : Int) : D)
    | none => make_float4 (0.0 : D)
  if config.camera_overrided then config.camera.div ((config.compute_size_ratio : Int) : D)
  else camera

/-- The function `processAll` (lines 169-251).  `locals` holds the contents of the
uninitialised local variables at entry.  The result is `none` when the call
dereferences a `NULL` reader; otherwise it is the returned `int`, the reader after
the call and the globals after the call.  The global `kfusion` is not `NULL`.  The
static `duration` (line 171) is never read and is left out. -/
def processAll (R : DepthReader D ρ β) (K : Kfusion D κ β) (locals : Locals D)
    (reader : Option ρ) (processFrame renderImages : Bool) (config : Configuration D)
    (reset : Bool) (g : Globals D κ β) : Option (Int × Option ρ × Globals D κ β) := do
  -- lines 180-187
  let inputSize := processAll_inputSize R reader
  let camera := processAll_camera R reader config
  -- lines 189-191
  let g ← if reset then reader.map (fun r => g.setFrameOffset (R.getFrameNumber r)) else some g
  -- lines 192-197
  let finished := false
  let g := if processFrame then g.call Call.Stats_start else g
  let timings := Function.update locals.timings 0 (tock g).1
  let g := (tock g).2
  -- line 198, the condition `processFrame && reader->readNextDepthFrame(inputRGB, inputDepth)`
  let cond ← if processFrame then
      reader.map (fun r =>
        ((R.readNextDepthFrame r g.input).1, some (R.readNextDepthFrame r g.input).2.1,
          (g.setInput (R.readNextDepthFrame r g.input).2.2).call Call.readNextDepthFrame))
    else some (false, reader, g)
  let reader := cond.2.1
  let g := cond.2.2
  -- lines 198-231
  let body ← if cond.1 then
      reader.map (fun r => (processAll_stages R K r inputSize camera config timings g, finished))
    else if processFrame then
      some (({ locals with timings := Function.update timings 0 (tock g).1 }, (tock g).2), true)
    else some (({ locals with timings := timings }, g), finished)
  let locals := body.1.1
  let g := body.1.2
  let finished := body.2
  -- lines 232-239
  let rendered ← if renderImages then
      (if processFrame then reader.map (fun r => R.getFrameNumber r - g.frameOffset)
        else some 0).map (fun frame => processAll_render K frame camera config locals g)
    else some (locals, g)
  let locals := rendered.1
  let g := rendered.2
  -- lines 241-249
  let g := if processFrame then processAll_record config locals g else g
  -- line 250
  some ((if finished then 1 else 0), reader, g)

/-- Successive calls `processAll(reader, processFrame, renderImages, config, reset)`
on one reader, one call for each element of the list (the contents of the
uninitialised locals of that call).  The result is the list of returned values, the
reader and the globals after the last call. -/
def processAllTimes (R : DepthReader D ρ β) (K : Kfusion D κ β)
    (processFrame renderImages : Bool) (config : Configuration D) (reset : Bool) :
    List (Locals D) → Option ρ → Globals D κ β →
      Option (List Int × Option ρ × Globals D κ β)
  | [], reader, g => some ([], reader, g)
  | locals :: rest, reader, g =>
    (processAll R K locals reader processFrame renderImages config reset g).bind fun res =>
      (processAllTimes R K processFrame renderImages config reset rest res.2.1 res.2.2).map
        fun out => (res.1 :: out.1, out.2)

/-- The arguments of one call of `processAll`, with the contents of its
uninitialised locals and the state of the reader object passed to it. -/
structure CallArgs (D ρ : Type) where
  locals : Locals D
  reader : Option ρ
  processFrame : Bool
  renderImages : Bool
  config : Configuration D
  reset : Bool

/-- A sequence of calls of `processAll` with arbitrary arguments; the reader passed
to a call may be any reader in any state.  The result is the globals after the last
call. -/
def processAllCalls (R : DepthReader D ρ β) (K : Kfusion D κ β) :
    List (CallArgs D ρ) → Globals D κ β → Option (Globals D κ β)
  | [], g => some g
  | a :: rest, g =>
    (processAll R K a.locals a.reader a.processFrame a.renderImages a.config a.reset g).bind
      fun res => processAllCalls R K rest res.2.2

/-- The reader `r` delivers frames with exactly the raw frame numbers of the list, in
order, and then reports that no frame could be read.  `getFrameNumber` is read after
each successful `readNextDepthFrame`. -/
def DepthReader.streamIs (R : DepthReader D ρ β) : List Int → ρ → β → Bool
  | [], r, b => !(R.readNextDepthFrame r b).1
  | n :: rest, r, b =>
    (R.readNextDepthFrame r b).1 &&
      (decide (R.getFrameNumber (R.readNextDepthFrame r b).2.1 = n) &&
        R.streamIs rest (R.readNextDepthFrame r b).2.1 (R.readNextDepthFrame r b).2.2)

/-- The reader `r` delivers at least `n` more frames. -/
def DepthReader.streamAtLeast (R : DepthReader D ρ β) : Nat → ρ → β → Bool
  | 0, _, _ => true
  | n + 1, r, b =>
    (R.readNextDepthFrame r b).1 &&
      R.streamAtLeast n (R.readNextDepthFrame r b).2.1 (R.readNextDepthFrame r b).2.2

/-- The calls to the three stages that take the logical frame index. -/
def Call.isStage : Call D → Bool
  | Call.tracking _ _ _ _ => true
  | Call.integration _ _ _ _ => true
  | Call.raycasting _ _ _ => true
  | _ => false

/-- The calls `powerMonitor->sample()`. -/
def Call.isPowerSample : Call D → Bool
  | Call.powerMonitor_sample => true
  | _ => false

/-- The calls `reader->readNextDepthFrame(...)`. -/
def Call.isRead : Call D → Bool
  | Call.readNextDepthFrame => true
  | _ => false

/-- The calls to an engine operation that `processAll` makes. -/
def Call.isEngine : Call D → Bool
  | Call.preprocessing _ => true
  | Call.tracking _ _ _ _ => true
  | Call.integration _ _ _ _ => true
  | Call.raycasting _ _ _ => true
  | Call.renderDepth => true
  | Call.renderTrack => true
  | Call.renderVolume _ _ _ _ => true
  | _ => false

/-- The calls of the stage block (lines 205-223) for the logical frame `frame`. -/
def stageCalls (inputSize : uint2) (camera : float4 D) (config : Configuration D)
    (frame : Int) : List (Call D) :=
  [Call.tock, Call.preprocessing inputSize, Call.tock,
   Call.tracking camera config.icp_threshold config.tracking_rate frame, Call.tock,
   Call.integration camera config.integration_rate config.mu frame, Call.tock,
   Call.raycasting camera config.mu frame, Call.tock]

/-- The calls of the rendering block (lines 233-238) for the frame argument `frame`. -/
def renderCalls (frame : Int) (camera : float4 D) (config : Configuration D) :
    List (Call D) :=
  [Call.renderDepth, Call.renderTrack,
   Call.renderVolume frame config.rendering_rate camera ((0.75 : D) * config.mu), Call.tock]

/-- The sink `new` is the sink `old` after one call of `storeStats` with the frame
index `frame`. -/
def PerfStats.storedGroup (old new : PerfStats D) (frame : Int) : Prop :=
  ∃ timings pos tracked integrated,
    new = storeStats old frame timings pos tracked integrated

/-- The condition `powerMonitor != NULL && !firstFrame` (lines 200 and 242). -/
def Globals.powerActive (g : Globals D κ β) : Bool :=
  g.powerMonitor.isSome && !g.firstFrame

/-! ## The controller `main` (lines 85-167), build without `__QT__` -/

/-- How a run of the program ends: with a result, in undefined behaviour (division by
zero, `NULL` dereference), or not within the given number of loop iterations. -/
inductive Run (α : Type) where
  | ok (a : α)
  | undefined
  | outOfFuel

/-- The result of a run that ended with one. -/
def Run.toOption {α : Type} : Run α → Option α
  | Run.ok a => some a
  | _ => none

/-- The quotient `a / b` of an `unsigned int` by an `int`: `b` is converted to
`unsigned int`; the quotient is undefined when the converted divisor is zero. -/
def udiv (a : Nat) (b : Int) : Option Nat :=
  if (b % 2 ^ 32).toNat = 0 then none else some (a / (b % 2 ^ 32).toNat)

/-- The loops `while (processAll(reader, true, true, &config, false) == 0)` of `main`
(lines 129-132 with `draw`, lines 139-140 without), limited to `fuel` calls.  `i`
counts the calls made so far and `junk i` holds the contents of the uninitialised
locals of call `i`. -/
def main_loop (R : DepthReader D ρ β) (K : Kfusion D κ β) (draw : Bool)
    (config : Configuration D) (junk : Nat → Locals D) :
    Nat → Nat → Option ρ → Globals D κ β → Run (Globals D κ β)
  | 0, _, _, _ => Run.outOfFuel
  | fuel + 1, i, reader, g =>
    match processAll R K (junk i) reader true true config false g with
    | none => Run.undefined
    | some res =>
      if res.1 = 0 then
        main_loop R K draw config junk fuel (i + 1) res.2.1
          (res.2.2.callWhen draw Call.drawthem)
      else Run.ok res.2.2

/-- The function `main` (lines 85-167) of the build without `__QT__`.  `config` is
the parsed configuration, `pm` the object `new PowerMonitor()`, `createReader` the
result of `createReader(&config)`, `input` the contents of the fresh input buffers
and `clock` the clock.  The result is the exit status and the globals at exit. -/
def main (R : DepthReader D ρ β) (K : Kfusion D κ β) (config : Configuration D)
    (pm : PowerMonitor) (createReader : Option ρ) (input : β) (clock : Nat → D)
    (junk : Nat → Locals D) (fuel : Nat) : Run (Int × Globals D κ β) :=
  -- lines 91-98
  let reader := createReader
  let inputSize := processAll_inputSize R reader
  match udiv inputSize.x config.compute_size_ratio,
      udiv inputSize.y config.compute_size_ratio with
  | some x, some y =>
    let computationSize := make_uint2 x y
    -- lines 112-117
    let init_pose := config.initial_pos_factor.mul config.volume_size
    let g : Globals D κ β :=
      { Stats := ⟨[]⟩,
        powerMonitor := some pm,
        input := input,
        kfusion := K.create computationSize config.volume_resolution config.volume_size
          init_pose config.pyramid,
        frameOffset := 0,
        firstFrame := true,
        clock := clock,
        ticks := 0,
        log := [Call.new_Kfusion computationSize config.volume_resolution config.volume_size
          init_pose config.pyramid] }
    let config := { config with render_volume_fullsize := false }
    -- lines 121-141
    let invalid : Bool :=
      match reader with
      | none => true
      | some r => R.cameraActive r == false
    let looped : Run (Int × Globals D κ β) ⊕ Globals D κ β :=
      if !config.no_gui then
        if invalid then Sum.inl (Run.ok (1, g.call (Call.cerr "No valid input file specified\n")))
        else
          match main_loop R K true config junk fuel 0 reader g with
          | Run.ok g => Sum.inr g
          | Run.undefined => Sum.inl Run.undefined
          | Run.outOfFuel => Sum.inl Run.outOfFuel
      else
        if invalid then Sum.inl (Run.ok (1, g.call (Call.cerr "No valid input file specified\n")))
        else
          match main_loop R K false config junk fuel 0 reader g with
          | Run.ok g => Sum.inr g
          | Run.undefined => Sum.inl Run.undefined
          | Run.outOfFuel => Sum.inl Run.outOfFuel
    match looped with
    | Sum.inl stop => stop
    | Sum.inr g =>
      -- lines 144-158
      let g := if config.dump_volume_file != "" then
          (g.call (Call.dumpVolume config.dump_volume_file)).setKfusion
            (K.dumpVolume g.kfusion config.dump_volume_file)
        else g
      let g := g.callWhen (config.log_file != "") (Call.Stats_print_all_data config.log_file)
      let g := g.callWhen pm.isActive (Call.powerStats_print_all_data "power.rpt")
      Run.ok (0, g)
  | _, _ => Run.undefined

end Driver

/-! ## A recorded stream and a stub engine, to instantiate the theorems -/

/-- A recorded stream: the raw numbers of the frames not read yet, the number of the
frame last read, and the `cameraActive` flag. -/
structure FileStream where
  frames : List Int
  frame : Int
  active : Bool
deriving DecidableEq, Repr

/-- A reader over a recorded stream: `readNextDepthFrame` takes the next frame while
one is left. -/
def fileReader : DepthReader ℚ FileStream Unit where
  getinputSize := fun _ => make_uint2 640 480
  getK := fun _ => ⟨481, 480, 320, 240⟩
  getFrameNumber := fun s => s.frame
  readNextDepthFrame := fun s b =>
    match s.frames with
    | [] => (false, s, b)
    | n :: rest => (true, { s with frames := rest, frame := n }, b)
  cameraActive := fun s => s.active

/-- An engine without state whose stages all report failure. -/
def stubEngine : Kfusion ℚ Unit Unit where
  getPosition := fun _ => ⟨0, 0, 0⟩
  preprocessing := fun _ _ _ => ()
  tracking := fun _ _ _ _ _ => (false, ())
  integration := fun _ _ _ _ _ => (false, ())
  raycasting := fun _ _ _ _ => (false, ())
  renderDepth := fun _ _ => ()
  renderTrack := fun _ _ => ()
  renderVolume := fun _ _ _ _ _ _ => ()
  getComputationResolution := fun _ => make_uint2 320 240
  create := fun _ _ _ _ _ => ()
  dumpVolume := fun _ _ => ()

/-- A configuration with `compute_size_ratio = 2`, run without display. -/
def sampleConfig : Configuration ℚ where
  compute_size_ratio := 2
  initial_pos_factor := ⟨1 / 2, 1 / 2, 0⟩
  volume_size := ⟨2, 2, 2⟩
  volume_resolution := ⟨256, 256, 256⟩
  pyramid := [10, 5, 4]
  integration_rate := 2
  tracking_rate := 1
  rendering_rate := 4
  icp_threshold := 1 / 100000
  mu := 1 / 10
  camera_overrided := false
  camera := ⟨0, 0, 0, 0⟩
  no_gui := true
  log_file := "log.txt"
  dump_volume_file := ""
  render_volume_fullsize := false

/-- Contents of the uninitialised locals of a call. -/
def sampleLocals : Locals ℚ where
  tracked := true
  integrated := true
  raycasted := true
  timings := fun _ => 7
  pos := ⟨3, 3, 3⟩
  frame := 12345

/-- The globals before the first call of `processAll`: empty sink, a power monitor,
`frameOffset = 0`, `firstFrame = true`. -/
def initialGlobals : Globals ℚ Unit Unit where
  Stats := ⟨[]⟩
  powerMonitor := some ⟨true⟩
  input := ()
  kfusion := ()
  frameOffset := 0
  firstFrame := true
  clock := fun n => n
  ticks := 0
  log := []

/-- A recorded stream standing at frame 5, with the frames 6 and 7 left. -/
def pausedStream : FileStream :=
  { frames := [6, 7], frame := 5, active := true }

/-- A recorded stream that holds the frames `0, ..., n - 1` and has read none. -/
def recorded (n : Nat) : FileStream :=
  { frames := (List.range n).map Int.ofNat, frame := -1, active := true }

/-! ## Projections of the state transformers -/

section Frame

variable {D κ β : Type}

@[simp] theorem Globals.call_Stats (g : Globals D κ β) (c : Call D) :
    (g.call c).Stats = g.Stats := rfl

@[simp] theorem Globals.call_powerMonitor (g : Globals D κ β) (c : Call D) :
    (g.call c).powerMonitor = g.powerMonitor := rfl

@[simp] theorem Globals.call_input (g : Globals D κ β) (c : Call D) :
    (g.call c).input = g.input := rfl

@[simp] theorem Globals.call_kfusion (g : Globals D κ β) (c : Call D) :
    (g.call c).kfusion = g.kfusion := rfl

@[simp] theorem Globals.call_frameOffset (g : Globals D κ β) (c : Call D) :
    (g.call c).frameOffset = g.frameOffset := rfl

@[simp] theorem Globals.call_firstFrame (g : Globals D κ β) (c : Call D) :
    (g.call c).firstFrame = g.firstFrame := rfl

@[simp] theorem Globals.call_clock (g : Globals D κ β) (c : Call D) :
    (g.call c).clock = g.clock := rfl

@[simp] theorem Globals.call_ticks (g : Globals D κ β) (c : Call D) :
    (g.call c).ticks = g.ticks := rfl

@[simp] theorem Globals.call_log (g : Globals D κ β) (c : Call D) :
    (g.call c).log = g.log ++ [c] := rfl

@[simp] theorem Globals.callWhen_Stats (g : Globals D κ β) (b : Bool) (c : Call D) :
    (g.callWhen b c).Stats = g.Stats := rfl

@[simp] theorem Globals.callWhen_powerMonitor (g : Globals D κ β) (b : Bool) (c : Call D) :
    (g.callWhen b c).powerMonitor = g.powerMonitor := rfl

@[simp] theorem Globals.callWhen_input (g : Globals D κ β) (b : Bool) (c : Call D) :
    (g.callWhen b c).input = g.input := rfl

@[simp] theorem Globals.callWhen_kfusion (g : Globals D κ β) (b : Bool) (c : Call D) :
    (g.callWhen b c).kfusion = g.kfusion := rfl

@[simp] theorem Globals.callWhen_frameOffset (g : Globals D κ β) (b : Bool) (c : Call D) :
    (g.callWhen b c).frameOffset = g.frameOffset := rfl

@[simp] theorem Globals.callWhen_firstFrame (g : Globals D κ β) (b : Bool) (c : Call D) :
    (g.callWhen b c).firstFrame = g.firstFrame := rfl

@[simp] theorem Globals.callWhen_clock (g : Globals D κ β) (b : Bool) (c : Call D) :
    (g.callWhen b c).clock = g.clock := rfl

@[simp] theorem Globals.callWhen_ticks (g : Globals D κ β) (b : Bool) (c : Call D) :
    (g.callWhen b c).ticks = g.ticks := rfl

@[simp] theorem Globals.callWhen_log (g : Globals D κ β) (b : Bool) (c : Call D) :
    (g.callWhen b c).log = g.log ++ (if b then [c] else []) := rfl

@[simp] theorem Globals.setKfusion_Stats (g : Globals D κ β) (k : κ) :
    (g.setKfusion k).Stats = g.Stats := rfl

@[simp] theorem Globals.setKfusion_powerMonitor (g : Globals D κ β) (k : κ) :
    (g.setKfusion k).powerMonitor = g.powerMonitor := rfl

@[simp] theorem Globals.setKfusion_input (g : Globals D κ β) (k : κ) :
    (g.setKfusion k).input = g.input := rfl

@[simp] theorem Globals.setKfusion_kfusion (g : Globals D κ β) (k : κ) :
    (g.setKfusion k).kfusion = k := rfl

@[simp] theorem Globals.setKfusion_frameOffset (g : Globals D κ β) (k : κ) :
    (g.setKfusion k).frameOffset = g.frameOffset := rfl

@[simp] theorem Globals.setKfusion_firstFrame (g : Globals D κ β) (k : κ) :
    (g.setKfusion k).firstFrame = g.firstFrame := rfl

@[simp] theorem Globals.setKfusion_clock (g : Globals D κ β) (k : κ) :
    (g.setKfusion k).clock = g.clock := rfl

@[simp] theorem Globals.setKfusion_ticks (g : Globals D κ β) (k : κ) :
    (g.setKfusion k).ticks = g.ticks := rfl

@[simp] theorem Globals.setKfusion_log (g : Globals D κ β) (k : κ) :
    (g.setKfusion k).log = g.log := rfl

@[simp] theorem Globals.setInput_Stats (g : Globals D κ β) (b : β) :
    (g.setInput b).Stats = g.Stats := rfl

@[simp] theorem Globals.setInput_powerMonitor (g : Globals D κ β) (b : β) :
    (g.setInput b).powerMonitor = g.powerMonitor := rfl

@[simp] theorem Globals.setInput_input (g : Globals D κ β) (b : β) :
    (g.setInput b).input = b := rfl

@[simp] theorem Globals.setInput_kfusion (g : Globals D κ β) (b : β) :
    (g.setInput b).kfusion = g.kfusion := rfl

@[simp] theorem Globals.setInput_frameOffset (g : Globals D κ β) (b : β) :
    (g.setInput b).frameOffset = g.frameOffset := rfl

@[simp] theorem Globals.setInput_firstFrame (g : Globals D κ β) (b : β) :
    (g.setInput b).firstFrame = g.firstFrame := rfl

@[simp] theorem Globals.setInput_clock (g : Globals D κ β) (b : β) :
    (g.setInput b).clock = g.clock := rfl

@[simp] theorem Globals.setInput_ticks (g : Globals D κ β) (b : β) :
    (g.setInput b).ticks = g.ticks := rfl

@[simp] theorem Globals.setInput_log (g : Globals D κ β) (b : β) :
    (g.setInput b).log = g.log := rfl

@[simp] theorem Globals.setFrameOffset_Stats (g : Globals D κ β) (n : Int) :
    (g.setFrameOffset n).Stats = g.Stats := rfl

@[simp] theorem Globals.setFrameOffset_powerMonitor (g : Globals D κ β) (n : Int) :
    (g.setFrameOffset n).powerMonitor = g.powerMonitor := rfl

@[simp] theorem Globals.setFrameOffset_input (g : Globals D κ β) (n : Int) :
    (g.setFrameOffset n).input = g.input := rfl

@[simp] theorem Globals.setFrameOffset_kfusion (g : Globals D κ β) (n : Int) :
    (g.setFrameOffset n).kfusion = g.kfusion := rfl

@[simp] theorem Globals.setFrameOffset_frameOffset (g : Globals D κ β) (n : Int) :
    (g.setFrameOffset n).frameOffset = n := rfl

@[simp] theorem Globals.setFrameOffset_firstFrame (g : Globals D κ β) (n : Int) :
    (g.setFrameOffset n).firstFrame = g.firstFrame := rfl

@[simp] theorem Globals.setFrameOffset_clock (g : Globals D κ β) (n : Int) :
    (g.setFrameOffset n).clock = g.clock := rfl

@[simp] theorem Globals.setFrameOffset_ticks (g : Globals D κ β) (n : Int) :
    (g.setFrameOffset n).ticks = g.ticks := rfl

@[simp] theorem Globals.setFrameOffset_log (g : Globals D κ β) (n : Int) :
    (g.setFrameOffset n).log = g.log := rfl

@[simp] theorem Globals.setFirstFrame_Stats (g : Globals D κ β) (b : Bool) :
    (g.setFirstFrame b).Stats = g.Stats := rfl

@[simp] theorem Globals.setFirstFrame_powerMonitor (g : Globals D κ β) (b : Bool) :
    (g.setFirstFrame b).powerMonitor = g.powerMonitor := rfl

@[simp] theorem Globals.setFirstFrame_input (g : Globals D κ β) (b : Bool) :
    (g.setFirstFrame b).input = g.input := rfl

@[simp] theorem Globals.setFirstFrame_kfusion (g : Globals D κ β) (b : Bool) :
    (g.setFirstFrame b).kfusion = g.kfusion := rfl

@[simp] theorem Globals.setFirstFrame_frameOffset (g : Globals D κ β) (b : Bool) :
    (g.setFirstFrame b).frameOffset = g.frameOffset := rfl

@[simp] theorem Globals.setFirstFrame_firstFrame (g : Globals D κ β) (b : Bool) :
    (g.setFirstFrame b).firstFrame = b := rfl

@[simp] theorem Globals.setFirstFrame_clock (g : Globals D κ β) (b : Bool) :
    (g.setFirstFrame b).clock = g.clock := rfl

@[simp] theorem Globals.setFirstFrame_ticks (g : Globals D κ β) (b : Bool) :
    (g.setFirstFrame b).ticks = g.ticks := rfl

@[simp] theorem Globals.setFirstFrame_log (g : Globals D κ β) (b : Bool) :
    (g.setFirstFrame b).log = g.log := rfl

@[simp] theorem Globals.setStats_Stats (g : Globals D κ β) (s : PerfStats D) :
    (g.setStats s).Stats = s := rfl

@[simp] theorem Globals.setStats_powerMonitor (g : Globals D κ β) (s : PerfStats D) :
    (g.setStats s).powerMonitor = g.powerMonitor := rfl

@[simp] theorem Globals.setStats_input (g : Globals D κ β) (s : PerfStats D) :
    (g.setStats s).input = g.input := rfl

@[simp] theorem Globals.setStats_kfusion (g : Globals D κ β) (s : PerfStats D) :
    (g.setStats s).kfusion = g.kfusion := rfl

@[simp] theorem Globals.setStats_frameOffset (g : Globals D κ β) (s : PerfStats D) :
    (g.setStats s).frameOffset = g.frameOffset := rfl

@[simp] theorem Globals.setStats_firstFrame (g : Globals D κ β) (s : PerfStats D) :
    (g.setStats s).firstFrame = g.firstFrame := rfl

@[simp] theorem Globals.setStats_clock (g : Globals D κ β) (s : PerfStats D) :
    (g.setStats s).clock = g.clock := rfl

@[simp] theorem Globals.setStats_ticks (g : Globals D κ β) (s : PerfStats D) :
    (g.setStats s).ticks = g.ticks := rfl

@[simp] theorem Globals.setStats_log (g : Globals D κ β) (s : PerfStats D) :
    (g.setStats s).log = g.log := rfl

@[simp] theorem tock_fst (g : Globals D κ β) : (tock g).1 = g.clock g.ticks := rfl

@[simp] theorem tock_snd_Stats (g : Globals D κ β) :
    (tock g).2.Stats = g.Stats := rfl

@[simp] theorem tock_snd_powerMonitor (g : Globals D κ β) :
    (tock g).2.powerMonitor = g.powerMonitor := rfl

@[simp] theorem tock_snd_input (g : Globals D κ β) :
    (tock g).2.input = g.input := rfl

@[simp] theorem tock_snd_kfusion (g : Globals D κ β) :
    (tock g).2.kfusion = g.kfusion := rfl

@[simp] theorem tock_snd_frameOffset (g : Globals D κ β) :
    (tock g).2.frameOffset = g.frameOffset := rfl

@[simp] theorem tock_snd_firstFrame (g : Globals D κ β) :
    (tock g).2.firstFrame = g.firstFrame := rfl

@[simp] theorem tock_snd_clock (g : Globals D κ β) :
    (tock g).2.clock = g.clock := rfl

@[simp] theorem tock_snd_ticks (g : Globals D κ β) :
    (tock g).2.ticks = g.ticks + 1 := rfl

@[simp] theorem tock_snd_log (g : Globals D κ β) :
    (tock g).2.log = g.log ++ [Call.tock] := rfl

end Frame

/-! ## The blocks of `processAll` -/

set_option linter.unusedSectionVars false

section Blocks

variable {D ρ κ β : Type} [Sub D] [Mul D] [Div D] [IntCast D] [OfScientific D]
variable (R : DepthReader D ρ β) (K : Kfusion D κ β) (r : ρ) (inputSize : uint2)
  (camera : float4 D) (config : Configuration D) (timings : Fin 7 → D) (g : Globals D κ β)
  (locals : Locals D) (frame : Int)

theorem storeStats_samples (Stats : PerfStats D) (tracked integrated : Bool) (pos : float3 D) :
    (storeStats Stats frame timings pos tracked integrated).samples =
      Stats.samples ++ storeStatsGroup frame timings pos tracked integrated := by
  simp [storeStats, storeStatsGroup, PerfStats.sample]

theorem storeStatsGroup_keys (tracked integrated : Bool) (pos : float3 D) :
    (storeStatsGroup frame timings pos tracked integrated).map (fun s => (s.key, s.type)) =
      storeStatsKeys := by
  simp [storeStats, storeStatsGroup, PerfStats.sample, storeStatsKeys]

theorem storeStatsGroup_length (tracked integrated : Bool) (pos : float3 D) :
    (storeStatsGroup frame timings pos tracked integrated).length = 14 := by
  simp [storeStats, storeStatsGroup, PerfStats.sample]

@[simp] theorem storedGroup_storeStats (Stats : PerfStats D) (tracked integrated : Bool)
    (pos : float3 D) :
    Stats.storedGroup (storeStats Stats frame timings pos tracked integrated) frame :=
  ⟨timings, pos, tracked, integrated, rfl⟩

theorem storeStats_frameSamples (Stats : PerfStats D) (tracked integrated : Bool)
    (pos : float3 D) :
    (storeStats Stats frame timings pos tracked integrated).frameSamples =
      Stats.frameSamples ++ [((frame : Int) : D)] := by
  simp [PerfStats.frameSamples, storeStats, PerfStats.sample, List.filter_cons]

@[simp] theorem stages_frame :
    (processAll_stages R K r inputSize camera config timings g).1.frame =
      R.getFrameNumber r - g.frameOffset := by
  simp [processAll_stages]

@[simp] theorem stages_Stats :
    (processAll_stages R K r inputSize camera config timings g).2.Stats = g.Stats := by
  simp [processAll_stages]

@[simp] theorem stages_powerMonitor :
    (processAll_stages R K r inputSize camera config timings g).2.powerMonitor =
      g.powerMonitor := by
  simp [processAll_stages]

@[simp] theorem stages_input :
    (processAll_stages R K r inputSize camera config timings g).2.input = g.input := by
  simp [processAll_stages]

@[simp] theorem stages_frameOffset :
    (processAll_stages R K r inputSize camera config timings g).2.frameOffset =
      g.frameOffset := by
  simp [processAll_stages]

@[simp] theorem stages_firstFrame :
    (processAll_stages R K r inputSize camera config timings g).2.firstFrame =
      g.firstFrame := by
  simp [processAll_stages]

@[simp] theorem stages_log :
    (processAll_stages R K r inputSize camera config timings g).2.log =
      g.log ++ ((if g.powerActive = true then [Call.powerMonitor_start] else []) ++
        stageCalls inputSize camera config (R.getFrameNumber r - g.frameOffset)) := by
  simp [processAll_stages, stageCalls, Globals.powerActive]

@[simp] theorem render_frame :
    (processAll_render K frame camera config locals g).1.frame = locals.frame := by
  simp [processAll_render]

@[simp] theorem render_pos :
    (processAll_render K frame camera config locals g).1.pos = locals.pos := by
  simp [processAll_render]

@[simp] theorem render_tracked :
    (processAll_render K frame camera config locals g).1.tracked = locals.tracked := by
  simp [processAll_render]

@[simp] theorem render_integrated :
    (processAll_render K frame camera config locals g).1.integrated = locals.integrated := by
  simp [processAll_render]

@[simp] theorem render_Stats :
    (processAll_render K frame camera config locals g).2.Stats = g.Stats := by
  simp [processAll_render]

@[simp] theorem render_powerMonitor :
    (processAll_render K frame camera config locals g).2.powerMonitor = g.powerMonitor := by
  simp [processAll_render]

@[simp] theorem render_input :
    (processAll_render K frame camera config locals g).2.input = g.input := by
  simp [processAll_render]

@[simp] theorem render_frameOffset :
    (processAll_render K frame camera config locals g).2.frameOffset = g.frameOffset := by
  simp [processAll_render]

@[simp] theorem render_firstFrame :
    (processAll_render K frame camera config locals g).2.firstFrame = g.firstFrame := by
  simp [processAll_render]

@[simp] theorem render_log :
    (processAll_render K frame camera config locals g).2.log =
      g.log ++ renderCalls frame camera config := by
  simp [processAll_render, renderCalls]

@[simp] theorem record_Stats :
    (processAll_record config locals g).Stats =
      storeStats g.Stats locals.frame locals.timings locals.pos locals.tracked
        locals.integrated := by
  simp [processAll_record]

@[simp] theorem record_powerMonitor :
    (processAll_record config locals g).powerMonitor = g.powerMonitor := by
  simp [processAll_record]

@[simp] theorem record_input : (processAll_record config locals g).input = g.input := by
  simp [processAll_record]

@[simp] theorem record_frameOffset :
    (processAll_record config locals g).frameOffset = g.frameOffset := by
  simp [processAll_record]

@[simp] theorem record_firstFrame : (processAll_record config locals g).firstFrame = false := by
  simp [processAll_record]

@[simp] theorem record_log :
    (processAll_record config locals g).log =
      g.log ++ ((if g.powerActive = true then [Call.powerMonitor_sample] else []) ++
        (if (config.no_gui && config.log_file == "") = true then [Call.Stats_print] else [])) := by
  simp [processAll_record, Globals.powerActive]

end Blocks

/-! ## One call of `processAll` -/

section Calls

variable {D ρ κ β : Type} [Sub D] [Mul D] [Div D] [IntCast D] [OfScientific D]
variable (R : DepthReader D ρ β) (K : Kfusion D κ β) (locals : Locals D) (r : ρ)
  (renderImages : Bool) (config : Configuration D) (reset : Bool) (g : Globals D κ β)

theorem processAll_acquired (h : (R.readNextDepthFrame r g.input).1 = true) :
    ∃ res, processAll R K locals (some r) true renderImages config reset g = some res ∧
      res.1 = 0 ∧ res.2.1 = some (R.readNextDepthFrame r g.input).2.1 ∧
      res.2.2.input = (R.readNextDepthFrame r g.input).2.2 ∧
      res.2.2.frameOffset = (if reset = true then R.getFrameNumber r else g.frameOffset) ∧
      res.2.2.firstFrame = false ∧ res.2.2.powerMonitor = g.powerMonitor ∧
      g.Stats.storedGroup res.2.2.Stats
        (R.getFrameNumber (R.readNextDepthFrame r g.input).2.1 -
          (if reset = true then R.getFrameNumber r else g.frameOffset)) ∧
      res.2.2.log = g.log ++ ([Call.Stats_start, Call.tock, Call.readNextDepthFrame] ++
        (if g.powerActive = true then [Call.powerMonitor_start] else []) ++
        stageCalls (R.getinputSize r) (processAll_camera R (some r) config) config
          (R.getFrameNumber (R.readNextDepthFrame r g.input).2.1 -
            (if reset = true then R.getFrameNumber r else g.frameOffset)) ++
        (if renderImages = true then renderCalls
          (R.getFrameNumber (R.readNextDepthFrame r g.input).2.1 -
            (if reset = true then R.getFrameNumber r else g.frameOffset))
          (processAll_camera R (some r) config) config else []) ++
        (if g.powerActive = true then [Call.powerMonitor_sample] else []) ++
        (if (config.no_gui && config.log_file == "") = true then [Call.Stats_print] else [])) := by
  cases renderImages <;> cases reset <;>
    simp [processAll, h, processAll_inputSize, Globals.powerActive]

theorem processAll_exhausted (h : (R.readNextDepthFrame r g.input).1 = false) :
    ∃ res, processAll R K locals (some r) true renderImages config reset g = some res ∧
      res.1 = 1 ∧ res.2.1 = some (R.readNextDepthFrame r g.input).2.1 ∧
      res.2.2.input = (R.readNextDepthFrame r g.input).2.2 ∧
      res.2.2.frameOffset = (if reset = true then R.getFrameNumber r else g.frameOffset) ∧
      res.2.2.firstFrame = false ∧ res.2.2.powerMonitor = g.powerMonitor ∧
      g.Stats.storedGroup res.2.2.Stats locals.frame ∧
      res.2.2.log = g.log ++ ([Call.Stats_start, Call.tock, Call.readNextDepthFrame, Call.tock] ++
        (if renderImages = true then renderCalls
          (R.getFrameNumber (R.readNextDepthFrame r g.input).2.1 -
            (if reset = true then R.getFrameNumber r else g.frameOffset))
          (processAll_camera R (some r) config) config else []) ++
        (if g.powerActive = true then [Call.powerMonitor_sample] else []) ++
        (if (config.no_gui && config.log_file == "") = true then [Call.Stats_print] else [])) := by
  cases renderImages <;> cases reset <;>
    simp [processAll, h, processAll_inputSize, Globals.powerActive]

theorem processAll_idle (reader : Option ρ) (hr : reset = true → reader.isSome = true) :
    ∃ res, processAll R K locals reader false renderImages config reset g = some res ∧
      res.1 = 0 ∧ res.2.1 = reader ∧ res.2.2.input = g.input ∧
      res.2.2.frameOffset = (if reset = true then
        (reader.map R.getFrameNumber).getD g.frameOffset else g.frameOffset) ∧
      res.2.2.firstFrame = g.firstFrame ∧ res.2.2.powerMonitor = g.powerMonitor ∧
      res.2.2.Stats = g.Stats ∧
      res.2.2.log = g.log ++ ([Call.tock] ++
        (if renderImages = true then renderCalls 0 (processAll_camera R reader config) config
          else [])) := by
  cases renderImages <;> cases reset <;> cases reader <;>
    simp [processAll] at hr ⊢

theorem processAll_present (processFrame : Bool) :
    ∃ res, processAll R K locals (some r) processFrame renderImages config reset g = some res ∧
      (res.1 = 0 ∨ res.1 = 1) ∧
      (res.1 = 1 ↔ processFrame = true ∧ (R.readNextDepthFrame r g.input).1 = false) ∧
      res.2.2.frameOffset = (if reset = true then R.getFrameNumber r else g.frameOffset) ∧
      res.2.2.firstFrame = (if processFrame = true then false else g.firstFrame) ∧
      res.2.2.powerMonitor = g.powerMonitor := by
  cases processFrame
  · obtain ⟨res, h, h1, -, -, h4, h5, h6, -, -⟩ :=
      processAll_idle R K locals renderImages config reset g (some r) (fun _ => rfl)
    refine ⟨res, h, Or.inl h1, by simp [h1], ?_, by simpa using h5, h6⟩
    cases reset <;> simpa using h4
  · cases hread : (R.readNextDepthFrame r g.input).1
    · obtain ⟨res, h, h1, -, -, h4, h5, h6, -, -⟩ :=
        processAll_exhausted R K locals r renderImages config reset g hread
      exact ⟨res, h, Or.inr h1, by simp [h1], h4, by simpa using h5, h6⟩
    · obtain ⟨res, h, h1, -, -, h4, h5, h6, -, -⟩ :=
        processAll_acquired R K locals r renderImages config reset g hread
      exact ⟨res, h, Or.inl h1, by simp [h1], h4, by simpa using h5, h6⟩

theorem processAll_null (processFrame : Bool) (h : (processFrame || reset) = true) :
    processAll R K locals none processFrame renderImages config reset g = none := by
  cases renderImages <;> cases reset <;> cases processFrame <;>
    simp [processAll] at h ⊢

theorem processAll_frameOffset_eq (reader : Option ρ) (processFrame : Bool)
    (res : Int × Option ρ × Globals D κ β)
    (h : processAll R K locals reader processFrame renderImages config false g = some res) :
    res.2.2.frameOffset = g.frameOffset := by
  cases reader with
  | none =>
    cases processFrame
    · obtain ⟨res1, h1, -, -, -, h4, -⟩ :=
        processAll_idle R K locals renderImages config false g none (by simp)
      rw [h1] at h
      cases h
      simpa using h4
    · rw [processAll_null R K locals renderImages config false g true rfl] at h
      cases h
  | some r =>
    obtain ⟨res1, h1, -, -, h4, -⟩ :=
      processAll_present R K locals r renderImages config false g processFrame
    rw [h1] at h
    cases h
    simpa using h4

theorem processAll_frameOffset_reset (reader : Option ρ) (processFrame : Bool)
    (res : Int × Option ρ × Globals D κ β)
    (h : processAll R K locals reader processFrame renderImages config true g = some res) :
    ∃ r, reader = some r ∧ res.2.2.frameOffset = R.getFrameNumber r := by
  cases reader with
  | none =>
    rw [processAll_null R K locals renderImages config true g processFrame (by simp)] at h
    cases h
  | some r =>
    obtain ⟨res1, h1, -, -, h4, -⟩ :=
      processAll_present R K locals r renderImages config true g processFrame
    rw [h1] at h
    cases h
    exact ⟨r, rfl, by simpa using h4⟩

theorem storedGroup_samples (old new : PerfStats D) (frame : Int)
    (h : old.storedGroup new frame) :
    ∃ timings pos tracked integrated,
      new.samples = old.samples ++ storeStatsGroup frame timings pos tracked integrated := by
  obtain ⟨timings, pos, tracked, integrated, rfl⟩ := h
  exact ⟨timings, pos, tracked, integrated, storeStats_samples _ _ _ _ _ _⟩

theorem storedGroup_length (old new : PerfStats D) (frame : Int)
    (h : old.storedGroup new frame) : new.samples.length = old.samples.length + 14 := by
  obtain ⟨timings, pos, tracked, integrated, hs⟩ := storedGroup_samples old new frame h
  rw [hs, List.length_append, storeStatsGroup_length]

theorem storedGroup_keys (old new : PerfStats D) (frame : Int)
    (h : old.storedGroup new frame) : new.keys = old.keys ++ storeStatsKeys := by
  obtain ⟨timings, pos, tracked, integrated, hs⟩ := storedGroup_samples old new frame h
  rw [PerfStats.keys, hs, List.map_append, storeStatsGroup_keys]
  rfl

theorem storedGroup_frameSamples (old new : PerfStats D) (frame : Int)
    (h : old.storedGroup new frame) :
    new.frameSamples = old.frameSamples ++ [((frame : Int) : D)] := by
  obtain ⟨timings, pos, tracked, integrated, rfl⟩ := h
  exact storeStats_frameSamples _ _ _ _ _ _

theorem processAll_acquired_frame (k : Nat)
    (hread : (R.readNextDepthFrame r g.input).1 = true)
    (hk : R.getFrameNumber (R.readNextDepthFrame r g.input).2.1 -
      (if reset = true then R.getFrameNumber r else g.frameOffset) = (k : Int)) :
    ∃ res, processAll R K locals (some r) true renderImages config reset g = some res ∧
      res.1 = 0 ∧
      g.Stats.storedGroup res.2.2.Stats (k : Int) ∧
      res.2.2.Stats.frameSamples = g.Stats.frameSamples ++ [(((k : Int)) : D)] ∧
      (res.2.2.log.drop g.log.length).filter Call.isStage =
        [Call.tracking (processAll_camera R (some r) config) config.icp_threshold
            config.tracking_rate (k : Int),
         Call.integration (processAll_camera R (some r) config) config.integration_rate
            config.mu (k : Int),
         Call.raycasting (processAll_camera R (some r) config) config.mu (k : Int)] := by
  obtain ⟨res, h, h1, -, -, -, -, -, h7, h8⟩ :=
    processAll_acquired R K locals r renderImages config reset g hread
  rw [hk] at h7 h8
  refine ⟨res, h, h1, h7, storedGroup_frameSamples _ _ _ h7, ?_⟩
  rw [h8, List.drop_left]
  cases renderImages <;> cases g.powerActive <;>
    cases (config.no_gui && config.log_file == "") <;>
    simp [stageCalls, renderCalls, Call.isStage, List.filter]

theorem processAll_power_samples :
    ∃ res, processAll R K locals (some r) true renderImages config reset g = some res ∧
      res.2.2.firstFrame = false ∧
      ((res.2.2.log.drop g.log.length).filter Call.isPowerSample).length =
        (if g.powerActive = true then 1 else 0) := by
  cases hread : (R.readNextDepthFrame r g.input).1
  · obtain ⟨res, h, -, -, -, -, h5, -, -, h8⟩ :=
      processAll_exhausted R K locals r renderImages config reset g hread
    refine ⟨res, h, h5, ?_⟩
    rw [h8, List.drop_left]
    cases renderImages <;> cases g.powerActive <;>
      cases (config.no_gui && config.log_file == "") <;>
      simp [renderCalls, Call.isPowerSample, List.filter]
  · obtain ⟨res, h, -, -, -, -, h5, -, -, h8⟩ :=
      processAll_acquired R K locals r renderImages config reset g hread
    refine ⟨res, h, h5, ?_⟩
    rw [h8, List.drop_left]
    cases renderImages <;> cases g.powerActive <;>
      cases (config.no_gui && config.log_file == "") <;>
      simp [stageCalls, renderCalls, Call.isPowerSample, List.filter]

end Calls

/-! ## Sequences of calls -/

section Sequences

variable {D ρ κ β : Type} [Sub D] [Mul D] [Div D] [IntCast D] [OfScientific D]
variable (R : DepthReader D ρ β) (K : Kfusion D κ β) (renderImages : Bool)
  (config : Configuration D) (reset : Bool)

theorem processAllTimes_cons (processFrame : Bool) (locals : Locals D) (rest : List (Locals D))
    (reader : Option ρ) (g : Globals D κ β) (res : Int × Option ρ × Globals D κ β)
    (out : List Int × Option ρ × Globals D κ β)
    (h : processAll R K locals reader processFrame renderImages config reset g = some res)
    (hrest : processAllTimes R K processFrame renderImages config reset rest res.2.1 res.2.2 =
      some out) :
    processAllTimes R K processFrame renderImages config reset (locals :: rest) reader g =
      some (res.1 :: out.1, out.2) := by
  simp [processAllTimes, h, hrest]

theorem processAllTimes_stream (last : Locals D) :
    ∀ (numbers : List Int) (junk : List (Locals D)) (r : ρ) (g : Globals D κ β),
      junk.length = numbers.length → R.streamIs numbers r g.input = true →
      ∃ out, processAllTimes R K true renderImages config reset (junk ++ [last]) (some r) g =
          some out ∧
        out.1 = List.replicate numbers.length 0 ++ [1] ∧
        (reset = false →
          out.2.2.frameOffset = g.frameOffset ∧
          out.2.2.Stats.frameSamples = g.Stats.frameSamples ++
            numbers.map (fun n => ((n - g.frameOffset : Int) : D)) ++
              [((last.frame : Int) : D)]) := by
  intro numbers
  induction numbers with
  | nil =>
    intro junk r g hlen hs
    have hj : junk = [] := List.length_eq_zero.mp hlen
    subst hj
    have hread : (R.readNextDepthFrame r g.input).1 = false := by
      simpa [DepthReader.streamIs] using hs
    obtain ⟨res, h, h1, -, -, h4, -, -, h7, -⟩ :=
      processAll_exhausted R K last r renderImages config reset g hread
    refine ⟨(res.1 :: [], res.2.1, res.2.2), ?_, by simp [h1], ?_⟩
    · exact processAllTimes_cons R K renderImages config reset true last [] (some r) g res
        ([], res.2.1, res.2.2) h rfl
    · intro hreset
      subst hreset
      refine ⟨by simpa using h4, ?_⟩
      simpa using storedGroup_frameSamples _ _ _ h7
  | cons n rest ih =>
    intro junk r g hlen hs
    cases junk with
    | nil => simp at hlen
    | cons locals junk =>
      have hlen1 : junk.length = rest.length := by simpa using hlen
      simp only [DepthReader.streamIs, Bool.and_eq_true, decide_eq_true_eq] at hs
      obtain ⟨hread, hnum, hrest⟩ := hs
      obtain ⟨res, h, h1, h2, h3, h4, -, -, h7, -⟩ :=
        processAll_acquired R K locals r renderImages config reset g hread
      rw [← h3] at hrest
      obtain ⟨out, ho, ho1, ho2⟩ := ih junk (R.readNextDepthFrame r g.input).2.1 res.2.2 hlen1 hrest
      rw [← h2] at ho
      refine ⟨(res.1 :: out.1, out.2), ?_, by simp [h1, ho1, List.replicate_succ], ?_⟩
      · exact processAllTimes_cons R K renderImages config reset true locals (junk ++ [last])
          (some r) g res out h ho
      · intro hreset
        obtain ⟨ho3, ho4⟩ := ho2 hreset
        subst hreset
        have h4 : res.2.2.frameOffset = g.frameOffset := by simpa using h4
        refine ⟨by simpa [h4] using ho3, ?_⟩
        have h8 := storedGroup_frameSamples _ _ _ h7
        simp only [Bool.false_eq_true, if_false] at h8
        simp [ho4, h8, h4, hnum]

theorem processAllTimes_atLeast :
    ∀ (junk : List (Locals D)) (r : ρ) (g : Globals D κ β),
      R.streamAtLeast junk.length r g.input = true →
      ∃ out, processAllTimes R K true renderImages config reset junk (some r) g = some out ∧
        out.1 = List.replicate junk.length 0 ∧
        out.2.2.Stats.samples.length = g.Stats.samples.length + 14 * junk.length ∧
        out.2.2.Stats.keys = g.Stats.keys ++ (List.replicate junk.length storeStatsKeys).flatten := by
  intro junk
  induction junk with
  | nil =>
    intro r g _
    exact ⟨([], some r, g), rfl, rfl, by simp, by simp⟩
  | cons locals junk ih =>
    intro r g hs
    simp only [List.length_cons, DepthReader.streamAtLeast, Bool.and_eq_true] at hs
    obtain ⟨hread, hrest⟩ := hs
    obtain ⟨res, h, h1, h2, h3, -, -, -, h7, -⟩ :=
      processAll_acquired R K locals r renderImages config reset g hread
    rw [← h3] at hrest
    obtain ⟨out, ho, ho1, ho2, ho3⟩ := ih (R.readNextDepthFrame r g.input).2.1 res.2.2 hrest
    rw [← h2] at ho
    refine ⟨(res.1 :: out.1, out.2), ?_, by simp [h1, ho1, List.replicate_succ], ?_, ?_⟩
    · exact processAllTimes_cons R K renderImages config reset true locals junk (some r) g
        res out h ho
    · have h8 := storedGroup_length _ _ _ h7
      simp only [List.length_cons]
      omega
    · have h8 := storedGroup_keys _ _ _ h7
      simp [ho3, h8, List.replicate_succ]

theorem processAllCalls_frameOffset :
    ∀ (calls : List (CallArgs D ρ)) (g g1 : Globals D κ β),
      (∀ a ∈ calls, a.reset = false) → processAllCalls R K calls g = some g1 →
      g1.frameOffset = g.frameOffset := by
  intro calls
  induction calls with
  | nil =>
    intro g g1 _ h
    simp only [processAllCalls, Option.some.injEq] at h
    rw [h]
  | cons a rest ih =>
    intro g g1 hall h
    have ha : a.reset = false := hall a (List.mem_cons_self _ _)
    simp only [processAllCalls, ha] at h
    cases hcall : processAll R K a.locals a.reader a.processFrame a.renderImages a.config
        false g with
    | none => simp [hcall] at h
    | some res =>
      simp only [hcall, Option.some_bind] at h
      have h1 := ih res.2.2 g1 (fun b hb => hall b (List.mem_cons_of_mem _ hb)) h
      rw [h1]
      exact processAll_frameOffset_eq R K a.locals a.renderImages a.config g a.reader
        a.processFrame res hcall

end Sequences

/-! ## Properties of the frame driver -/

section Claims

variable {D ρ κ β : Type} [Sub D] [Mul D] [Div D] [IntCast D] [OfScientific D]

/-- C1: for every frame index, timings `t 0 .. t 6`, pose and booleans `tracked`,
`integrated`, `storeStats` leaves the samples already in the sink unchanged and adds
after them, in this order, `frame` (FRAME) with the frame index, the eight TIME samples
`acquisition = t1 - t0`, `preprocessing = t2 - t1`, `tracking = t3 - t2`,
`integration = t4 - t3`, `raycasting = t5 - t4`, `rendering = t6 - t5`,
`computation = t5 - t1`, `total = t6 - t0`, the DISTANCE samples `X`, `Y`, `Z` with the
pose components, and `tracked`, `integrated` with value 0 or 1, of the kind the source
names `INT` (the count kind). -/
theorem storeStats_appends_in_order (Stats : PerfStats D) (frameIndex : Int) (t : Fin 7 → D)
    (pose : float3 D) (tracked integrated : Bool) :
    (storeStats Stats frameIndex t pose tracked integrated).samples =
      Stats.samples ++
        [⟨"frame", ((frameIndex : Int) : D), PerfStats.Type_.FRAME⟩,
         ⟨"acquisition", t 1 - t 0, PerfStats.Type_.TIME⟩,
         ⟨"preprocessing", t 2 - t 1, PerfStats.Type_.TIME⟩,
         ⟨"tracking", t 3 - t 2, PerfStats.Type_.TIME⟩,
         ⟨"integration", t 4 - t 3, PerfStats.Type_.TIME⟩,
         ⟨"raycasting", t 5 - t 4, PerfStats.Type_.TIME⟩,
         ⟨"rendering", t 6 - t 5, PerfStats.Type_.TIME⟩,
         ⟨"computation", t 5 - t 1, PerfStats.Type_.TIME⟩,
         ⟨"total", t 6 - t 0, PerfStats.Type_.TIME⟩,
         ⟨"X", pose.x, PerfStats.Type_.DISTANCE⟩,
         ⟨"Y", pose.y, PerfStats.Type_.DISTANCE⟩,
         ⟨"Z", pose.z, PerfStats.Type_.DISTANCE⟩,
         ⟨"tracked", (((if tracked = true then 1 else 0 : Int)) : D), PerfStats.Type_.INT⟩,
         ⟨"integrated", (((if integrated = true then 1 else 0 : Int)) : D),
           PerfStats.Type_.INT⟩] := by
  simp [storeStats, PerfStats.sample, boolToDouble]

/-- C2: for every call of `processAll` with a present reader the call returns, the
returned value is 0 or 1, and it is 1 (finished) exactly when `processFrame` is true and
`readNextDepthFrame` reports that no frame could be read; this holds for every engine, so
also when a stage returns false.  For a reader whose stream holds exactly the frames
`numbers`, driven with `processFrame = true`, the first `numbers.length` calls return 0
and the next call returns 1. -/
theorem processAll_finished_iff_exhausted :
    (∀ (R : DepthReader D ρ β) (K : Kfusion D κ β) (locals : Locals D) (r : ρ)
        (processFrame renderImages : Bool) (config : Configuration D) (reset : Bool)
        (g : Globals D κ β),
      ∃ res, processAll R K locals (some r) processFrame renderImages config reset g =
          some res ∧
        (res.1 = 0 ∨ res.1 = 1) ∧
        (res.1 = 1 ↔ processFrame = true ∧ (R.readNextDepthFrame r g.input).1 = false)) ∧
    (∀ (R : DepthReader D ρ β) (K : Kfusion D κ β) (renderImages : Bool)
        (config : Configuration D) (reset : Bool) (numbers : List Int)
        (junk : List (Locals D)) (last : Locals D) (r : ρ) (g : Globals D κ β),
      junk.length = numbers.length → R.streamIs numbers r g.input = true →
      ∃ out, processAllTimes R K true renderImages config reset (junk ++ [last]) (some r) g =
          some out ∧
        out.1 = List.replicate numbers.length 0 ++ [1]) := by
  constructor
  · intro R K locals r processFrame renderImages config reset g
    obtain ⟨res, h, h1, h2, -⟩ :=
      processAll_present R K locals r renderImages config reset g processFrame
    exact ⟨res, h, h1, h2⟩
  · intro R K renderImages config reset numbers junk last r g hlen hs
    obtain ⟨out, h, h1, -⟩ :=
      processAllTimes_stream R K renderImages config reset last numbers junk r g hlen hs
    exact ⟨out, h, h1⟩

/-- C2, at a recorded stream of two frames and an engine whose stages all fail: the
three calls return 0, 0, 1. -/
theorem processAll_finished_iff_exhausted_witness :
    fileReader.streamIs [0, 1] (recorded 2) initialGlobals.input = true ∧
      ∃ out, processAllTimes fileReader stubEngine true false sampleConfig false
          ([sampleLocals, sampleLocals] ++ [sampleLocals]) (some (recorded 2)) initialGlobals =
            some out ∧
        out.1 = List.replicate [(0 : Int), 1].length 0 ++ [1] :=
  ⟨by decide,
    processAll_finished_iff_exhausted.2 fileReader stubEngine false sampleConfig false [0, 1]
      [sampleLocals, sampleLocals] sampleLocals (recorded 2) initialGlobals rfl (by decide)⟩

/-- C3, as stated, fails: one call with `processFrame = renderImages = true` on a
recorded stream of one frame, from the empty sink, leaves 14 samples, not 9. -/
theorem processAll_one_call_leaves_14_samples :
    (processAllTimes fileReader stubEngine true true sampleConfig false [sampleLocals]
        (some (recorded 1)) initialGlobals).map (fun out => out.2.2.Stats.samples.length) =
      some 14 ∧
    (processAllTimes fileReader stubEngine true true sampleConfig false [sampleLocals]
        (some (recorded 1)) initialGlobals).map (fun out => out.2.2.Stats.samples.length) ≠
      some (9 * 1) := by
  constructor <;> decide

/-- C3, amended: for every `N` and every reader whose stream holds at least `N` frames,
`N` calls of `processAll` with `processFrame = true` and `renderImages = true`, starting
from an empty sink, all return and leave the sink holding exactly `N` groups of 14
samples each (`14 * N` samples in total), each group in the fixed order of `storeStats`. -/
theorem processAll_N_calls_leave_14N_samples (R : DepthReader D ρ β) (K : Kfusion D κ β)
    (config : Configuration D) (reset : Bool) (N : Nat) (junk : List (Locals D)) (r : ρ)
    (g : Globals D κ β) (hN : junk.length = N) (hempty : g.Stats.samples = [])
    (hstream : R.streamAtLeast N r g.input = true) :
    ∃ out, processAllTimes R K true true config reset junk (some r) g = some out ∧
      out.2.2.Stats.samples.length = 14 * N ∧
      out.2.2.Stats.keys = (List.replicate N storeStatsKeys).flatten := by
  subst hN
  obtain ⟨out, h, -, h2, h3⟩ := processAllTimes_atLeast R K true config reset junk r g hstream
  refine ⟨out, h, by simpa [hempty] using h2, ?_⟩
  simpa [PerfStats.keys, hempty] using h3

/-- C3, amended, at a recorded stream of three frames and two calls. -/
theorem processAll_N_calls_leave_14N_samples_witness :
    [sampleLocals, sampleLocals].length = 2 ∧ initialGlobals.Stats.samples = [] ∧
      fileReader.streamAtLeast 2 (recorded 3) initialGlobals.input = true ∧
      ∃ out, processAllTimes fileReader stubEngine true true sampleConfig false
          [sampleLocals, sampleLocals] (some (recorded 3)) initialGlobals = some out ∧
        out.2.2.Stats.samples.length = 14 * 2 ∧
        out.2.2.Stats.keys = (List.replicate 2 storeStatsKeys).flatten :=
  ⟨rfl, rfl, by decide,
    processAll_N_calls_leave_14N_samples fileReader stubEngine sampleConfig false 2
      [sampleLocals, sampleLocals] (recorded 3) initialGlobals rfl rfl (by decide)⟩

set_option maxRecDepth 100000 in
/-- C4, on the code: on a recorded stream of the 10 frames `0, ..., 9`, run without
rendering from the initial state, the first 10 calls return 0 and call 11 returns 1
(finished), but the sink then holds 11 `frame` samples: the call that reports finished
passes the uninitialised local `frame` (here 12345) to `storeStats`. -/
theorem ten_frame_stream_leaves_11_frame_samples :
    (processAllTimes fileReader stubEngine true false sampleConfig false
        (List.replicate 11 sampleLocals) (some (recorded 10)) initialGlobals).map
          (fun out => (out.1, out.2.2.Stats.frameSamples)) =
      some ([0, 0, 0, 0, 0, 0, 0, 0, 0, 0, 1], [0, 1, 2, 3, 4, 5, 6, 7, 8, 9, 12345]) := by
  decide

/-- C5, on the code: from the initial state with a power monitor, a first call with
`processFrame = true` on an empty recorded stream acquires nothing (it returns 1); the
next call, on a recorded stream of one frame, acquires the first frame of the run
(it returns 0 and records `frame = 0`), and `powerMonitor->sample()` is called once
during that call. -/
theorem first_acquired_frame_is_sampled_after_failed_call :
    (processAll fileReader stubEngine sampleLocals (some (recorded 0)) true false sampleConfig
        false initialGlobals).bind (fun first =>
      (processAll fileReader stubEngine sampleLocals (some (recorded 1)) true false
          sampleConfig false first.2.2).map (fun second =>
        (first.1, second.1, second.2.2.Stats.frameSamples,
          ((second.2.2.log.drop first.2.2.log.length).filter Call.isPowerSample).length))) =
      some (1, 0, [12345, 0], 1) := by
  decide

/-- C9, on the code: for every pipeline state and configuration, a call of `processAll`
with a `NULL` reader and `processFrame = true` dereferences the reader at line 198
(`reader->readNextDepthFrame`): its behaviour is undefined, it does not return
`finished = true`. -/
theorem processAll_null_reader_is_dereferenced (R : DepthReader D ρ β) (K : Kfusion D κ β)
    (locals : Locals D) (renderImages : Bool) (config : Configuration D)
    (g : Globals D κ β) :
    processAll R K locals none true renderImages config false g = none :=
  processAll_null R K locals renderImages config false g true rfl

/-- C6: let `processAll` be called with `reset = true` while the reader's current frame
number is `R`.  If that call itself acquires a frame whose raw index is `R + k`, or if,
after any further calls with `reset = false`, a call acquires a frame whose raw index is
`R + k`, then the acquiring call returns 0 and uses the logical frame `k`: the calls to
tracking, integration and raycasting made during the call are exactly one each, with
frame argument `k`, and the group of samples it records has `frame = k`.  With `k = 0`
this is the frame at raw index `R`. -/
theorem reset_rebases_logical_frame :
    (∀ (R : DepthReader D ρ β) (K : Kfusion D κ β) (locals : Locals D) (r : ρ)
        (renderImages : Bool) (config : Configuration D) (g : Globals D κ β) (k : Nat),
      (R.readNextDepthFrame r g.input).1 = true →
      R.getFrameNumber (R.readNextDepthFrame r g.input).2.1 = R.getFrameNumber r + k →
      ∃ res, processAll R K locals (some r) true renderImages config true g = some res ∧
        res.1 = 0 ∧
        g.Stats.storedGroup res.2.2.Stats (k : Int) ∧
        res.2.2.Stats.frameSamples = g.Stats.frameSamples ++ [(((k : Int)) : D)] ∧
        (res.2.2.log.drop g.log.length).filter Call.isStage =
          [Call.tracking (processAll_camera R (some r) config) config.icp_threshold
              config.tracking_rate (k : Int),
           Call.integration (processAll_camera R (some r) config) config.integration_rate
              config.mu (k : Int),
           Call.raycasting (processAll_camera R (some r) config) config.mu (k : Int)]) ∧
    (∀ (R : DepthReader D ρ β) (K : Kfusion D κ β) (locals0 : Locals D) (r0 : ρ)
        (processFrame0 renderImages0 : Bool) (config0 : Configuration D) (g0 : Globals D κ β)
        (res0 : Int × Option ρ × Globals D κ β) (calls : List (CallArgs D ρ))
        (g1 : Globals D κ β) (locals : Locals D) (r : ρ) (renderImages : Bool)
        (config : Configuration D) (k : Nat),
      processAll R K locals0 (some r0) processFrame0 renderImages0 config0 true g0 =
        some res0 →
      (∀ a ∈ calls, a.reset = false) →
      processAllCalls R K calls res0.2.2 = some g1 →
      (R.readNextDepthFrame r g1.input).1 = true →
      R.getFrameNumber (R.readNextDepthFrame r g1.input).2.1 = R.getFrameNumber r0 + k →
      ∃ res, processAll R K locals (some r) true renderImages config false g1 = some res ∧
        res.1 = 0 ∧
        g1.Stats.storedGroup res.2.2.Stats (k : Int) ∧
        res.2.2.Stats.frameSamples = g1.Stats.frameSamples ++ [(((k : Int)) : D)] ∧
        (res.2.2.log.drop g1.log.length).filter Call.isStage =
          [Call.tracking (processAll_camera R (some r) config) config.icp_threshold
              config.tracking_rate (k : Int),
           Call.integration (processAll_camera R (some r) config) config.integration_rate
              config.mu (k : Int),
           Call.raycasting (processAll_camera R (some r) config) config.mu (k : Int)]) := by
  constructor
  · intro R K locals r renderImages config g k hread hraw
    exact processAll_acquired_frame R K locals r renderImages config true g k hread
      (by simp only [if_true]; omega)
  · intro R K locals0 r0 processFrame0 renderImages0 config0 g0 res0 calls g1 locals r
      renderImages config k hreset hcalls hrun hread hraw
    obtain ⟨r1, hr1, hoff0⟩ := processAll_frameOffset_reset R K locals0 renderImages0 config0
      g0 (some r0) processFrame0 res0 hreset
    cases hr1
    have hoff1 : g1.frameOffset = R.getFrameNumber r0 := by
      rw [processAllCalls_frameOffset R K calls res0.2.2 g1 hcalls hrun, hoff0]
    exact processAll_acquired_frame R K locals r renderImages config false g1 k hread
      (by simp only [Bool.false_eq_true, if_false]; omega)

/-- C6, at a recorded stream standing at frame 5: after a reset and one call that only
renders, the frame with raw index 6 is processed as logical frame 1. -/
theorem reset_rebases_logical_frame_witness :
    ∃ res0 g1 res,
      processAll fileReader stubEngine sampleLocals (some pausedStream) false false sampleConfig
        true initialGlobals = some res0 ∧
      processAllCalls fileReader stubEngine
        [⟨sampleLocals, some pausedStream, false, true, sampleConfig, false⟩] res0.2.2 =
          some g1 ∧
      processAll fileReader stubEngine sampleLocals (some pausedStream) true false sampleConfig
        false g1 = some res ∧
      res.1 = 0 ∧ res.2.2.Stats.frameSamples = g1.Stats.frameSamples ++ [(((1 : Nat) : Int) : ℚ)] ∧
      (res.2.2.log.drop g1.log.length).filter Call.isStage =
        [Call.tracking (processAll_camera fileReader (some pausedStream) sampleConfig)
            sampleConfig.icp_threshold sampleConfig.tracking_rate ((1 : Nat) : Int),
         Call.integration (processAll_camera fileReader (some pausedStream) sampleConfig)
            sampleConfig.integration_rate sampleConfig.mu ((1 : Nat) : Int),
         Call.raycasting (processAll_camera fileReader (some pausedStream) sampleConfig)
            sampleConfig.mu ((1 : Nat) : Int)] :=
  have h0 : (processAll fileReader stubEngine sampleLocals (some pausedStream) false false
      sampleConfig true initialGlobals).isSome = true := by decide
  have h1 : (processAllCalls fileReader stubEngine
      [⟨sampleLocals, some pausedStream, false, true, sampleConfig, false⟩]
      ((processAll fileReader stubEngine sampleLocals (some pausedStream) false false
        sampleConfig true initialGlobals).get h0).2.2).isSome = true := rfl
  let ⟨res, h, hret, _, hframe, hlog⟩ :=
    reset_rebases_logical_frame.2 fileReader stubEngine sampleLocals pausedStream false false
      sampleConfig initialGlobals
      ((processAll fileReader stubEngine sampleLocals (some pausedStream) false false
        sampleConfig true initialGlobals).get h0)
      [⟨sampleLocals, some pausedStream, false, true, sampleConfig, false⟩]
      ((processAllCalls fileReader stubEngine
        [⟨sampleLocals, some pausedStream, false, true, sampleConfig, false⟩]
        ((processAll fileReader stubEngine sampleLocals (some pausedStream) false false
          sampleConfig true initialGlobals).get h0).2.2).get h1)
      sampleLocals pausedStream false sampleConfig 1
      (Option.some_get h0).symm (by decide) (Option.some_get h1).symm rfl rfl
  ⟨_, _, res, (Option.some_get h0).symm, (Option.some_get h1).symm, h, hret, hframe, hlog⟩

/-- C7: for every pipeline state, configuration and reader (present in any state, or
absent when no reset is requested), a call of `processAll` with `processFrame = false` and
`renderImages = true` returns 0, leaves the reader and the input buffers as they were,
adds no sample to the sink, and makes exactly the calls `tock`, `renderDepth`,
`renderTrack`, `renderVolume` with frame index 0, the configured rendering rate, the
camera vector and the threshold `0.75 * mu`, and `tock`: `readNextDepthFrame` is not
called. -/
theorem processAll_render_only (R : DepthReader D ρ β) (K : Kfusion D κ β)
    (locals : Locals D) (reader : Option ρ) (config : Configuration D) (reset : Bool)
    (g : Globals D κ β) (hr : reset = true → reader.isSome = true) :
    ∃ res, processAll R K locals reader false true config reset g = some res ∧
      res.1 = 0 ∧ res.2.1 = reader ∧ res.2.2.input = g.input ∧ res.2.2.Stats = g.Stats ∧
      res.2.2.log = g.log ++
        [Call.tock, Call.renderDepth, Call.renderTrack,
         Call.renderVolume 0 config.rendering_rate (processAll_camera R reader config)
           ((0.75 : D) * config.mu),
         Call.tock] ∧
      (res.2.2.log.drop g.log.length).filter Call.isRead = [] := by
  obtain ⟨res, h, h1, h2, h3, -, -, -, h7, h8⟩ :=
    processAll_idle R K locals true config reset g reader hr
  have h9 : res.2.2.log = g.log ++
      [Call.tock, Call.renderDepth, Call.renderTrack,
       Call.renderVolume 0 config.rendering_rate (processAll_camera R reader config)
         ((0.75 : D) * config.mu),
       Call.tock] := by
    simpa [renderCalls] using h8
  refine ⟨res, h, h1, h2, h3, h7, h9, ?_⟩
  rw [h9, List.drop_left]
  simp [Call.isRead, List.filter]

/-- C7, for the absent reader and the sample configuration. -/
theorem processAll_render_only_witness :
    (false = true → (none : Option FileStream).isSome = true) ∧
      ∃ res, processAll fileReader stubEngine sampleLocals none false true sampleConfig false
          initialGlobals = some res ∧
        res.1 = 0 ∧ res.2.1 = none ∧ res.2.2.input = initialGlobals.input ∧
        res.2.2.Stats = initialGlobals.Stats ∧
        res.2.2.log = initialGlobals.log ++
          [Call.tock, Call.renderDepth, Call.renderTrack,
           Call.renderVolume 0 sampleConfig.rendering_rate
             (processAll_camera fileReader none sampleConfig) ((0.75 : ℚ) * sampleConfig.mu),
           Call.tock] ∧
        (res.2.2.log.drop initialGlobals.log.length).filter Call.isRead = [] :=
  ⟨by decide,
    processAll_render_only fileReader stubEngine sampleLocals none sampleConfig false
      initialGlobals (by decide)⟩

/-- C8, as stated, fails: with a `NULL` reader `main` exits with status 1 without calling
`processAll`, but the engine has been constructed (`new Kfusion`, line 113) before the
reader is checked. -/
theorem main_constructs_engine_before_reader_check :
    (main fileReader stubEngine sampleConfig ⟨true⟩ none () (fun n => (n : ℚ))
        (fun _ => sampleLocals) 0).toOption.map (fun res => (res.1, res.2.log)) =
      some (1, [Call.new_Kfusion (make_uint2 320 240) sampleConfig.volume_resolution
        sampleConfig.volume_size
        (sampleConfig.initial_pos_factor.mul sampleConfig.volume_size) sampleConfig.pyramid,
        Call.cerr "No valid input file specified\n"]) := by
  rfl

/-- C8, amended: for every configuration whose `compute_size_ratio` is not zero as an
`unsigned int` (the division of lines 96-98 is undefined otherwise), if the reader
returned by `createReader` is `NULL` or its `cameraActive` flag is false, `main` (build
without `__QT__`, with and without `no_gui`) exits with status 1 whatever the bound on the
loop; up to the exit the only calls are the construction of the engine and the error
message, so `processAll` and the engine stages are never called and the sink is empty. -/
theorem main_exits_without_processing (R : DepthReader D ρ β) (K : Kfusion D κ β)
    (config : Configuration D) (pm : PowerMonitor) (reader : Option ρ) (input : β)
    (clock : Nat → D) (junk : Nat → Locals D) (fuel : Nat)
    (hratio : (config.compute_size_ratio % 2 ^ 32).toNat ≠ 0)
    (hinvalid : reader = none ∨ ∃ r, reader = some r ∧ R.cameraActive r = false) :
    ∃ g, main R K config pm reader input clock junk fuel = Run.ok (1, g) ∧
      g.log =
        [Call.new_Kfusion
            (make_uint2
              ((processAll_inputSize R reader).x / (config.compute_size_ratio % 2 ^ 32).toNat)
              ((processAll_inputSize R reader).y / (config.compute_size_ratio % 2 ^ 32).toNat))
            config.volume_resolution config.volume_size
            (config.initial_pos_factor.mul config.volume_size) config.pyramid,
         Call.cerr "No valid input file specified\n"] ∧
      g.log.filter Call.isEngine = [] ∧ g.Stats.samples = [] := by
  have hr2 : ¬ (config.compute_size_ratio % 2 ^ 32).toNat = 0 := hratio
  rcases hinvalid with h | ⟨r, h, hr⟩
  · subst h
    cases hgui : config.no_gui <;> simp only [main, udiv, if_neg hr2] <;>
      simp [hgui, Call.isEngine, List.filter, Globals.call]
  · subst h
    cases hgui : config.no_gui <;> simp only [main, udiv, if_neg hr2] <;>
      simp [hgui, hr, Call.isEngine, List.filter, Globals.call]

/-- C8, amended, for the absent reader and the sample configuration. -/
theorem main_exits_without_processing_witness :
    (sampleConfig.compute_size_ratio % 2 ^ 32).toNat ≠ 0 ∧
      ∃ g, main fileReader stubEngine sampleConfig ⟨true⟩ none () (fun n => (n : ℚ))
          (fun _ => sampleLocals) 3 = Run.ok (1, g) ∧
        g.log =
          [Call.new_Kfusion
              (make_uint2
                ((processAll_inputSize fileReader none).x /
                  (sampleConfig.compute_size_ratio % 2 ^ 32).toNat)
                ((processAll_inputSize fileReader none).y /
                  (sampleConfig.compute_size_ratio % 2 ^ 32).toNat))
              sampleConfig.volume_resolution sampleConfig.volume_size
              (sampleConfig.initial_pos_factor.mul sampleConfig.volume_size)
              sampleConfig.pyramid,
           Call.cerr "No valid input file specified\n"] ∧
        g.log.filter Call.isEngine = [] ∧ g.Stats.samples = [] :=
  ⟨by decide,
    main_exits_without_processing fileReader stubEngine sampleConfig ⟨true⟩ none ()
      (fun n => (n : ℚ)) (fun _ => sampleLocals) 3 (by decide) (Or.inl rfl)⟩

/-- C10, as stated, fails: a reset on a reader standing at frame 5 sets `frameOffset` to 5,
and a later reset on a reader standing at frame 2 lowers it to 2. -/
theorem reset_lowers_frameOffset :
    (processAllCalls fileReader stubEngine
        [⟨sampleLocals, some pausedStream, false, false, sampleConfig, true⟩]
        initialGlobals).map (fun g => g.frameOffset) = some 5 ∧
    (processAllCalls fileReader stubEngine
        [⟨sampleLocals, some pausedStream, false, false, sampleConfig, true⟩,
         ⟨sampleLocals, some ⟨[3, 4], 2, true⟩, false, false, sampleConfig, true⟩]
        initialGlobals).map (fun g => g.frameOffset) = some 2 := by
  constructor <;> decide

/-- C10, amended: `frameOffset` changes only on an explicit reset request.  A call of
`processAll` with `reset = false` that returns leaves `frameOffset` equal to its value
before the call, whatever `processFrame`, `renderImages` and the acquisition outcome are,
and so does every sequence of such calls; a call with `reset = true` that returns had a
reader and sets `frameOffset` to that reader's current frame number. -/
theorem frameOffset_changes_only_on_reset :
    (∀ (R : DepthReader D ρ β) (K : Kfusion D κ β) (locals : Locals D) (reader : Option ρ)
        (processFrame renderImages : Bool) (config : Configuration D) (reset : Bool)
        (g : Globals D κ β) (res : Int × Option ρ × Globals D κ β),
      processAll R K locals reader processFrame renderImages config reset g = some res →
        (reset = false → res.2.2.frameOffset = g.frameOffset) ∧
        (reset = true → ∃ r, reader = some r ∧ res.2.2.frameOffset = R.getFrameNumber r)) ∧
    (∀ (R : DepthReader D ρ β) (K : Kfusion D κ β) (calls : List (CallArgs D ρ))
        (g g1 : Globals D κ β),
      (∀ a ∈ calls, a.reset = false) → processAllCalls R K calls g = some g1 →
        g1.frameOffset = g.frameOffset) := by
  constructor
  · intro R K locals reader processFrame renderImages config reset g res h
    constructor
    · intro hreset
      subst hreset
      exact processAll_frameOffset_eq R K locals renderImages config g reader processFrame res h
    · intro hreset
      subst hreset
      exact processAll_frameOffset_reset R K locals renderImages config g reader processFrame
        res h
  · intro R K calls g g1 hcalls h
    exact processAllCalls_frameOffset R K calls g g1 hcalls h

/-- C10, amended, at two calls without reset on a recorded stream of two frames. -/
theorem frameOffset_changes_only_on_reset_witness :
    (∀ a ∈ [(⟨sampleLocals, some (recorded 2), true, true, sampleConfig, false⟩ :
        CallArgs ℚ FileStream),
        ⟨sampleLocals, none, false, true, sampleConfig, false⟩], a.reset = false) ∧
      ∃ g1, processAllCalls fileReader stubEngine
          [⟨sampleLocals, some (recorded 2), true, true, sampleConfig, false⟩,
           ⟨sampleLocals, none, false, true, sampleConfig, false⟩] initialGlobals = some g1 ∧
        g1.frameOffset = initialGlobals.frameOffset :=
  have h : (processAllCalls fileReader stubEngine
      [⟨sampleLocals, some (recorded 2), true, true, sampleConfig, false⟩,
       ⟨sampleLocals, none, false, true, sampleConfig, false⟩] initialGlobals).isSome = true := by
    decide
  ⟨by decide, _, (Option.some_get h).symm,
    frameOffset_changes_only_on_reset.2 fileReader stubEngine _ initialGlobals _ (by decide)
      (Option.some_get h).symm⟩

end Claims

end KFusion
